import Mathlib

/-!
Formal model of the orbital-simulator backend (`backend/physics/`):
`vector3d.py`, `constants.py`, `gravity.py`, `simulator.py`, `kepler.py`.
Python floats are modelled as exact real numbers; Python lists as Lean
lists.  Object identity (`body is self.sun`, `body is self`) is modelled
positionally, which is faithful because every element of the simulator's
body list is a distinct object and the distinguished sun is created once
and always sits at index 0.  Scalar divisions are Lean's total real
division: in the source most denominators are numpy floats, whose division
by zero silently yields infinities with a `RuntimeWarning` rather than
raising.  The one genuine `ZeroDivisionError` site — the pure-float vector
division by `mu` in the orbital-element computation — is modelled
explicitly (by `Option`/`Except`).
-/

namespace OrbitalSim

noncomputable section

open scoped Classical

/-- Value type of `vector3d.py`, class `Vector3D`: three real components. -/
structure Vector3D where
  x : ℝ
  y : ℝ
  z : ℝ

/-- Componentwise addition (`Vector3D.__add__`). -/
instance : Add Vector3D :=
  ⟨fun a b => ⟨a.x + b.x, a.y + b.y, a.z + b.z⟩⟩

/-- Componentwise subtraction (`Vector3D.__sub__`). -/
instance : Sub Vector3D :=
  ⟨fun a b => ⟨a.x - b.x, a.y - b.y, a.z - b.z⟩⟩

/-- Scalar multiplication on the right (`Vector3D.__mul__`). -/
instance : HMul Vector3D ℝ Vector3D :=
  ⟨fun v s => ⟨v.x * s, v.y * s, v.z * s⟩⟩

/-- Scalar multiplication on the left (`Vector3D.__rmul__`, delegating to
`__mul__`). -/
instance : HMul ℝ Vector3D Vector3D :=
  ⟨fun s v => v * s⟩

/-- Scalar division (`Vector3D.__truediv__`).  Lean's real division is
total; the one place where Python's `ZeroDivisionError` matters to a claim
(the orbital-element computation, claim C9) models the fault explicitly at
the call site. -/
instance : HDiv Vector3D ℝ Vector3D :=
  ⟨fun v s => ⟨v.x / s, v.y / s, v.z / s⟩⟩

/-- The zero vector `Vector3D(0, 0, 0)`. -/
instance : Zero Vector3D := ⟨⟨0, 0, 0⟩⟩

namespace Vector3D

/-- Euclidean magnitude (`Vector3D.magnitude`): `np.sqrt(x**2 + y**2 + z**2)`. -/
def magnitude (v : Vector3D) : ℝ :=
  Real.sqrt (v.x ^ 2 + v.y ^ 2 + v.z ^ 2)

/-- Normalization (`Vector3D.normalize`): returns the zero vector when the
magnitude is zero, otherwise divides by the magnitude. -/
def normalize (v : Vector3D) : Vector3D :=
  if v.magnitude = 0 then ⟨0, 0, 0⟩ else v / v.magnitude

/-- Dot product (`Vector3D.dot`). -/
def dot (a b : Vector3D) : ℝ :=
  a.x * b.x + a.y * b.y + a.z * b.z

/-- Cross product (`Vector3D.cross`). -/
def cross (a b : Vector3D) : Vector3D :=
  ⟨a.y * b.z - a.z * b.y, a.z * b.x - a.x * b.z, a.x * b.y - a.y * b.x⟩

end Vector3D

/-- Universal gravitational constant (`constants.G`). -/
def G : ℝ := 6.67430e-11

/-- Solar mass in kilograms (`constants.SOLAR_MASS`). -/
def SOLAR_MASS : ℝ := 1.989e30

/-- Astronomical unit in meters (`constants.AU`). -/
def AU : ℝ := 1.496e11

/-- Default integration time step in seconds (`constants.DEFAULT_TIME_STEP`). -/
def DEFAULT_TIME_STEP : ℝ := 3600

/-- Body state of `gravity.py`, class `CelestialBody`. -/
structure CelestialBody where
  name : String
  mass : ℝ
  position : Vector3D
  velocity : Vector3D
  radius : ℝ
  color : String
  trajectory : List Vector3D
  acceleration : Vector3D

instance : Inhabited CelestialBody :=
  ⟨⟨"", 0, 0, 0, 0, "", [], 0⟩⟩

/-- Constructor semantics of `CelestialBody.__init__`: a fresh body starts
with an empty trajectory and zero acceleration. -/
def mkBody (name : String) (mass : ℝ) (position velocity : Vector3D)
    (radius : ℝ) (color : String) : CelestialBody :=
  ⟨name, mass, position, velocity, radius, color, [], 0⟩

/-- Pairwise gravitational force (`CelestialBody.calculate_gravitational_force`):
the zero vector below the `1e-6` separation guard, else the unit vector from
self toward other scaled by `G * m1 * m2 / r²`. -/
def calculate_gravitational_force (self other : CelestialBody) : Vector3D :=
  let r_vector := other.position - self.position
  let r := r_vector.magnitude
  if r < 1e-6 then ⟨0, 0, 0⟩
  else
    let r_hat := r_vector.normalize
    let force_magnitude := G * self.mass * other.mass / (r * r)
    r_hat * force_magnitude

/-- Net gravitational acceleration (`CelestialBody.calculate_acceleration`).
Python skips `self` by object identity (`if body is self: continue`); here
the body at index `i` of the collection is `self`, and exactly that index is
skipped, which matches identity because each list element of the simulator
is a distinct object. -/
def calculate_acceleration (bodies : List CelestialBody) (i : ℕ) : Vector3D :=
  match bodies[i]? with
  | none => 0
  | some self =>
      let total_force :=
        bodies.enum.foldl
          (fun tf p =>
            if p.1 = i then tf else tf + calculate_gravitational_force self p.2)
          (0 : Vector3D)
      total_force / self.mass

/-- The Sun of `gravity.create_sun`: solar mass, at the origin, at rest. -/
def create_sun : CelestialBody :=
  mkBody "Sun" SOLAR_MASS ⟨0, 0, 0⟩ ⟨0, 0, 0⟩ 6.96e8 "#FFD700"

/-- A log of acceleration evaluations: each entry records the body
collection passed to `calculate_acceleration` together with the index of
the body whose acceleration is being evaluated. -/
def AccelLog : Type := List (List CelestialBody × ℕ)

/-- One iteration of the first loop of `OrbitalSimulator.step`
(`body.calculate_acceleration(self.bodies)`), producing the updated body
and the logged call.  `calculate_acceleration` stores its result in
`self.acceleration`, which is the update performed here. -/
def accelPass (acc : List CelestialBody) (i : ℕ) : CelestialBody × (List (List CelestialBody × ℕ)) :=
  let body := acc.getD i default
  ({ body with acceleration := calculate_acceleration acc i }, [(acc, i)])

/-- One iteration of the second loop of `OrbitalSimulator.step` (the
velocity-Verlet update of one body).  The position write happens before the
second acceleration evaluation, so that evaluation receives the collection
`moved`, in which this body's position is already advanced. -/
def verletPass (dt : ℝ) (max_trajectory_points : ℕ)
    (acc : List CelestialBody) (i : ℕ) : CelestialBody × (List (List CelestialBody × ℕ)) :=
  let body := acc.getD i default
  let half_velocity := body.velocity + body.acceleration * (dt / 2)
  let new_position := body.position + half_velocity * dt
  let moved := acc.set i { body with position := new_position }
  let new_acceleration := calculate_acceleration moved i
  ({ body with
      position := new_position
      velocity := half_velocity + new_acceleration * (dt / 2)
      acceleration := new_acceleration
      trajectory :=
        if body.trajectory.length < max_trajectory_points then
          body.trajectory ++ [new_position]
        else
          body.trajectory.tail ++ [new_position] },
    [(moved, i)])

/-- Driver of the two `for body in self.bodies` loops of
`OrbitalSimulator.step`: indices `0, 1, ..., n-1` in order, skipping the
sun at index 0 (`if body is self.sun: continue`), each non-skipped index
replaced in place by the pass result, with the logs concatenated. -/
def runPass (f : List CelestialBody → ℕ → CelestialBody × (List (List CelestialBody × ℕ)))
    (bs : List CelestialBody) : ℕ → List CelestialBody × (List (List CelestialBody × ℕ))
  | 0 => (bs, [])
  | n + 1 =>
      let p := runPass f bs n
      if n = 0 then p
      else
        let r := f p.1 n
        (p.1.set n r.1, p.2 ++ r.2)

/-- A full loop over the body list. -/
def loopBodies (f : List CelestialBody → ℕ → CelestialBody × (List (List CelestialBody × ℕ)))
    (bs : List CelestialBody) : List CelestialBody × (List (List CelestialBody × ℕ)) :=
  runPass f bs bs.length

/-- Per-body payload of `CelestialBody.to_dict` (used by the global history
buffer). -/
structure BodyDict where
  name : String
  mass : ℝ
  position : Vector3D
  velocity : Vector3D
  radius : ℝ
  color : String
  acceleration : Vector3D

/-- Serialization `CelestialBody.to_dict`. -/
def CelestialBody.to_dict (b : CelestialBody) : BodyDict :=
  ⟨b.name, b.mass, b.position, b.velocity, b.radius, b.color, b.acceleration⟩

/-- One entry of the global history buffer (`OrbitalSimulator._store_state`). -/
structure Snapshot where
  time : ℝ
  bodies : List BodyDict

/-- Append with sliding-window eviction (`OrbitalSimulator._store_state`):
the snapshot excludes the sun (`if body is not self.sun`, i.e. index 0). -/
def store_state (hist : List Snapshot) (max_trajectory_points : ℕ)
    (time : ℝ) (bodies : List CelestialBody) : List Snapshot :=
  let state : Snapshot := ⟨time, (bodies.drop 1).map CelestialBody.to_dict⟩
  if hist.length < max_trajectory_points then hist ++ [state]
  else hist.tail ++ [state]

/-- Simulation state of `simulator.py`, class `OrbitalSimulator`.  The
`sun` field models the `self.sun` reference, which always aliases the
element at index 0 of `bodies`. -/
structure OrbitalSimulator where
  time_step : ℝ
  speed_multiplier : ℝ
  bodies : List CelestialBody
  sun : CelestialBody
  time : ℝ
  is_running : Bool
  trajectory_history : List Snapshot
  max_trajectory_points : ℕ

namespace OrbitalSimulator

/-- Constructor `OrbitalSimulator.__init__`. -/
def init (time_step speed_multiplier : ℝ) : OrbitalSimulator :=
  { time_step := time_step
    speed_multiplier := speed_multiplier
    bodies := [create_sun]
    sun := create_sun
    time := 0
    is_running := false
    trajectory_history := []
    max_trajectory_points := 1000 }

/-- `OrbitalSimulator.add_body`: appends a freshly constructed body. -/
def add_body (s : OrbitalSimulator) (name : String) (mass : ℝ)
    (position velocity : Vector3D) (radius : ℝ) (color : String) :
    OrbitalSimulator :=
  { s with bodies := s.bodies ++ [mkBody name mass position velocity radius color] }

/-- Degree-to-radian conversion `np.radians`. -/
def radians (x : ℝ) : ℝ := x * (Real.pi / 180)

/-- `OrbitalSimulator.add_body_from_parameters`: converts (distance in AU,
speed, polar angle in degrees) to Cartesian state in the x-y plane, with
velocity at the angle plus 90 degrees, then delegates to `add_body`. -/
def add_body_from_parameters (s : OrbitalSimulator) (name : String)
    (mass distance_from_sun initial_velocity angle radius : ℝ)
    (color : String) : OrbitalSimulator :=
  let distance_m := distance_from_sun * AU
  let angle_rad := radians angle
  let position : Vector3D :=
    ⟨distance_m * Real.cos angle_rad, distance_m * Real.sin angle_rad, 0⟩
  let velocity_angle := angle_rad + Real.pi / 2
  let velocity : Vector3D :=
    ⟨initial_velocity * Real.cos velocity_angle,
     initial_velocity * Real.sin velocity_angle, 0⟩
  s.add_body name mass position velocity radius color

/-- `OrbitalSimulator.start`. -/
def start (s : OrbitalSimulator) : OrbitalSimulator :=
  { s with is_running := true }

/-- `OrbitalSimulator.stop`. -/
def stop (s : OrbitalSimulator) : OrbitalSimulator :=
  { s with is_running := false }

/-- `OrbitalSimulator.reset`: zeroes the clock, stops, keeps only the sun,
clears the history buffer, and clears the trajectory of every remaining
body — in Python the final loop mutates the aliased sun object itself, so
the `sun` field is updated as well. -/
def reset (s : OrbitalSimulator) : OrbitalSimulator :=
  let sun := { s.sun with trajectory := ([] : List Vector3D) }
  { s with
      time := 0
      is_running := false
      sun := sun
      bodies := [sun]
      trajectory_history := [] }

/-- `OrbitalSimulator.step`, instrumented: returns the next state together
with the log of every `calculate_acceleration` call made during the step
(first the whole acceleration pass, then the per-body Verlet pass).  A
stopped simulator returns unchanged with an empty log. -/
def step_log (s : OrbitalSimulator) : OrbitalSimulator × (List (List CelestialBody × ℕ)) :=
  if s.is_running = false then (s, [])
  else
    let dt := s.time_step * s.speed_multiplier
    let p1 := loopBodies accelPass s.bodies
    let p2 := loopBodies (verletPass dt s.max_trajectory_points) p1.1
    let new_time := s.time + dt
    ({ s with
        bodies := p2.1
        time := new_time
        trajectory_history :=
          store_state s.trajectory_history s.max_trajectory_points new_time p2.1 },
      p1.2 ++ p2.2)

/-- `OrbitalSimulator.step` as a state transformer. -/
def step (s : OrbitalSimulator) : OrbitalSimulator :=
  s.step_log.1

end OrbitalSimulator

/-- States reachable from a freshly constructed simulator by the public
operations (the read-only queries do not change state and are omitted). -/
inductive Reachable : OrbitalSimulator → Prop where
  | init (time_step speed_multiplier : ℝ) :
      Reachable (OrbitalSimulator.init time_step speed_multiplier)
  | add_body {s : OrbitalSimulator} (name : String) (mass : ℝ)
      (position velocity : Vector3D) (radius : ℝ) (color : String) :
      Reachable s → Reachable (s.add_body name mass position velocity radius color)
  | add_body_from_parameters {s : OrbitalSimulator} (name : String)
      (mass distance_from_sun initial_velocity angle radius : ℝ) (color : String) :
      Reachable s →
      Reachable (s.add_body_from_parameters name mass distance_from_sun
        initial_velocity angle radius color)
  | start {s : OrbitalSimulator} : Reachable s → Reachable s.start
  | stop {s : OrbitalSimulator} : Reachable s → Reachable s.stop
  | reset {s : OrbitalSimulator} : Reachable s → Reachable s.reset
  | step {s : OrbitalSimulator} : Reachable s → Reachable s.step

/-- Result dictionary of `kepler.calculate_orbital_elements`.  `period` is
`none` where Python returns `float('inf')` (unbound orbits); `periapsis`
and `apoapsis` are `none` where Python returns `None` (`e ≥ 1`). -/
structure OrbitalElements where
  semi_major_axis : ℝ
  eccentricity : ℝ
  inclination : ℝ
  longitude_of_ascending_node : ℝ
  argument_of_periapsis : ℝ
  true_anomaly : ℝ
  period : Option ℝ
  periapsis : Option ℝ
  apoapsis : Option ℝ

/-- Radian-to-degree conversion `np.degrees`. -/
def degrees (x : ℝ) : ℝ := x * (180 / Real.pi)

/-- `kepler.calculate_orbital_elements`.  The magnitudes are numpy floats
(`np.sqrt`), so the scalar divisions `mu / r` at `r = 0` and
`-mu / (2 * energy)` at zero specific energy are numpy divisions that yield
infinities with a `RuntimeWarning` and the function still returns a
dictionary; those divisions are modelled by Lean's total real division.
The one genuine fault is the pure-float vector division by `mu` inside
`Vector3D.__truediv__` when `mu = 0` (a Python `ZeroDivisionError`),
modelled by `none`; it is unreachable from the simulator, whose central
mass is fixed at `SOLAR_MASS`.  All remaining divisions are guarded by the
source's own positivity tests. -/
def calculate_orbital_elements (position velocity : Vector3D)
    (sun_mass : ℝ) : Option OrbitalElements :=
  let mu := G * sun_mass
  let r := position.magnitude
  let v := velocity.magnitude
  let h_vector := position.cross velocity
  let h := h_vector.magnitude
  let energy := 0.5 * v * v - mu / r
  let a := if energy ≥ 0 then -mu / (2 * energy) else -mu / (2 * energy)
  if mu = 0 then none else
  let e_vector := (velocity.cross h_vector) / mu - position.normalize
  let e := e_vector.magnitude
  let i := if h > 0 then Real.arccos (h_vector.z / h) else 0
  let n_vector := (Vector3D.mk 0 0 1).cross h_vector
  let n := n_vector.magnitude
  let Omega :=
    if n > 0 then
      let O := Real.arccos (n_vector.x / n)
      if n_vector.y < 0 then 2 * Real.pi - O else O
    else 0
  let omega :=
    if n > 0 ∧ e > 0 then
      let w := Real.arccos (n_vector.dot e_vector / (n * e))
      if e_vector.z < 0 then 2 * Real.pi - w else w
    else 0
  let nu :=
    if e > 0 then
      let q := Real.arccos (e_vector.dot position / (e * r))
      if position.dot velocity < 0 then 2 * Real.pi - q else q
    else 0
  let period := if a > 0 then some (2 * Real.pi * Real.sqrt (a ^ 3 / mu)) else none
  some
    { semi_major_axis := a
      eccentricity := e
      inclination := degrees i
      longitude_of_ascending_node := degrees Omega
      argument_of_periapsis := degrees omega
      true_anomaly := degrees nu
      period := period
      periapsis := if e < 1 then some (a * (1 - e)) else none
      apoapsis := if e < 1 then some (a * (1 + e)) else none }

/-- Orbital elements with the four angles still in radians, the form in
which the spec (§4.4) states the formulas and quadrant corrections. -/
structure OrbitalElementsRad where
  semi_major_axis : ℝ
  eccentricity : ℝ
  inclination : ℝ
  longitude_of_ascending_node : ℝ
  argument_of_periapsis : ℝ
  true_anomaly : ℝ
  period : Option ℝ
  periapsis : Option ℝ
  apoapsis : Option ℝ

/-- The spec's §4.4 element formulas with angles in radians: identical to
`calculate_orbital_elements` except that no degree conversion is applied to
any field.  Degenerate geometry is absorbed, not propagated as an error
(spec §7b); the sole `none` is the genuine `mu = 0` vector-division fault. -/
def orbital_elements_rad (position velocity : Vector3D)
    (sun_mass : ℝ) : Option OrbitalElementsRad :=
  let mu := G * sun_mass
  let r := position.magnitude
  let v := velocity.magnitude
  let h_vector := position.cross velocity
  let h := h_vector.magnitude
  let energy := 0.5 * v * v - mu / r
  let a := if energy ≥ 0 then -mu / (2 * energy) else -mu / (2 * energy)
  if mu = 0 then none else
  let e_vector := (velocity.cross h_vector) / mu - position.normalize
  let e := e_vector.magnitude
  let i := if h > 0 then Real.arccos (h_vector.z / h) else 0
  let n_vector := (Vector3D.mk 0 0 1).cross h_vector
  let n := n_vector.magnitude
  let Omega :=
    if n > 0 then
      let O := Real.arccos (n_vector.x / n)
      if n_vector.y < 0 then 2 * Real.pi - O else O
    else 0
  let omega :=
    if n > 0 ∧ e > 0 then
      let w := Real.arccos (n_vector.dot e_vector / (n * e))
      if e_vector.z < 0 then 2 * Real.pi - w else w
    else 0
  let nu :=
    if e > 0 then
      let q := Real.arccos (e_vector.dot position / (e * r))
      if position.dot velocity < 0 then 2 * Real.pi - q else q
    else 0
  let period := if a > 0 then some (2 * Real.pi * Real.sqrt (a ^ 3 / mu)) else none
  some
    { semi_major_axis := a
      eccentricity := e
      inclination := i
      longitude_of_ascending_node := Omega
      argument_of_periapsis := omega
      true_anomaly := nu
      period := period
      periapsis := if e < 1 then some (a * (1 - e)) else none
      apoapsis := if e < 1 then some (a * (1 + e)) else none }

/-- Conversion from radian-valued elements to the reported dictionary:
the four angular fields are put through `degrees`, every other field is
reported unchanged (raw SI units). -/
def reportElements (el : OrbitalElementsRad) : OrbitalElements :=
  { semi_major_axis := el.semi_major_axis
    eccentricity := el.eccentricity
    inclination := degrees el.inclination
    longitude_of_ascending_node := degrees el.longitude_of_ascending_node
    argument_of_periapsis := degrees el.argument_of_periapsis
    true_anomaly := degrees el.true_anomaly
    period := el.period
    periapsis := el.periapsis
    apoapsis := el.apoapsis }

/-- Fixed-point loop of `kepler.kepler_equation_solver`, with the iteration
budget as fuel; when the fuel runs out the last iterate is returned. -/
def kepler_loop (mean_anomaly eccentricity tolerance : ℝ) :
    ℕ → ℝ → ℝ
  | 0, E => E
  | k + 1, E =>
      let E_new := mean_anomaly + eccentricity * Real.sin E
      if |E_new - E| < tolerance then E_new
      else kepler_loop mean_anomaly eccentricity tolerance k E_new

/-- `kepler.kepler_equation_solver` at its default tolerance `1e-10` and
iteration budget 100 (the values used by `predict_position_from_elements`). -/
def kepler_equation_solver (mean_anomaly eccentricity : ℝ) : ℝ :=
  if eccentricity < 1e-6 then mean_anomaly
  else kepler_loop mean_anomaly eccentricity 1e-10 100 mean_anomaly

/-- Two-argument arctangent with numpy's quadrant conventions (signed
zeros are not modelled; `arctan2 0 0 = 0`). -/
def arctan2 (y x : ℝ) : ℝ :=
  if x > 0 then Real.arctan (y / x)
  else if x < 0 then
    if y ≥ 0 then Real.arctan (y / x) + Real.pi
    else Real.arctan (y / x) - Real.pi
  else
    if y > 0 then Real.pi / 2
    else if y < 0 then -(Real.pi / 2)
    else 0

/-- `kepler.predict_position_from_elements`: reads the semi-major axis,
eccentricity, inclination, node longitude and (unused) argument of
periapsis from the element dictionary, solves Kepler's equation, and
applies only the node rotation and the inclination z-tilt. -/
def predict_position_from_elements (orbital_elements : OrbitalElements)
    (time : ℝ) (sun_mass : ℝ) : Vector3D :=
  let a := orbital_elements.semi_major_axis
  let e := orbital_elements.eccentricity
  let i := OrbitalSimulator.radians orbital_elements.inclination
  let Omega := OrbitalSimulator.radians orbital_elements.longitude_of_ascending_node
  let omega := OrbitalSimulator.radians orbital_elements.argument_of_periapsis
  let mu := G * sun_mass
  let n := Real.sqrt (mu / a ^ 3)
  let M := n * time
  let E := kepler_equation_solver M e
  let nu := 2 * arctan2 (Real.sqrt (1 + e) * Real.sin (E / 2))
                        (Real.sqrt (1 - e) * Real.cos (E / 2))
  let r := a * (1 - e * Real.cos E)
  let x_orbital := r * Real.cos nu
  let y_orbital := r * Real.sin nu
  let x := x_orbital * Real.cos Omega - y_orbital * Real.sin Omega
  let y := x_orbital * Real.sin Omega + y_orbital * Real.cos Omega
  let z := r * Real.sin nu * Real.sin i
  ⟨x, y, z⟩

/-- `OrbitalSimulator.get_orbital_elements`.  `Except.ok none` is the
not-found signal (no body with the name, or the first body with the name
is the sun — `body is self.sun`, i.e. index 0); `Except.error ()` is the
`mu = 0` Python fault inside `calculate_orbital_elements`, unreachable
here because the central mass is fixed at `SOLAR_MASS`. -/
def OrbitalSimulator.get_orbital_elements (s : OrbitalSimulator)
    (body_name : String) : Except Unit (Option OrbitalElements) :=
  match s.bodies.enum.find? (fun p => p.2.name == body_name) with
  | none => Except.ok none
  | some p =>
      if p.1 = 0 then Except.ok none
      else
        match calculate_orbital_elements p.2.position p.2.velocity s.sun.mass with
        | none => Except.error ()
        | some el => Except.ok (some el)

/-- The force law in the spec's own words: zero below the `1e-6` separation
guard, otherwise `G·m₁·m₂/r²` times the unit vector from self toward other. -/
def force_spec (self other : CelestialBody) : Vector3D :=
  let r_vector := other.position - self.position
  let r := r_vector.magnitude
  if r < 1e-6 then 0
  else (G * self.mass * other.mass / (r * r)) * (r_vector / r)

/-- Concrete scenario for the step hazard: a running simulator holding one
planet that sits at the origin with velocity `(1, 0, 0)`. -/
def hazard_state : OrbitalSimulator :=
  ((OrbitalSimulator.init 3600 1).add_body "P" 1 ⟨0, 0, 0⟩ ⟨1, 0, 0⟩ 0 "#ffffff").start

/-- The collection received by the second acceleration evaluation of the
planet of `hazard_state` during one step: its position has already been
advanced to `(3600, 0, 0)`. -/
def hazard_entry : List CelestialBody × ℕ :=
  ([create_sun, ⟨"P", 1, ⟨3600, 0, 0⟩, ⟨1, 0, 0⟩, 0, "#ffffff", [], ⟨0, 0, 0⟩⟩], 1)

/-- The position of the body at index `i` after `k` calls to `step`: this
is the value the trajectory records at step `k`. -/
def position_after (s : OrbitalSimulator) (i k : ℕ) : Vector3D :=
  ((OrbitalSimulator.step^[k] s).bodies.getD i default).position

/-- The full sequence of positions recorded for body `i` during `n`
consecutive steps, in recording order. -/
def recorded (s : OrbitalSimulator) (i n : ℕ) : List Vector3D :=
  (List.range n).map (fun j => position_after s i (j + 1))

/-! Helper lemmas unfolding the vector instances. -/

theorem Vector3D.add_mk (a b : Vector3D) :
    a + b = ⟨a.x + b.x, a.y + b.y, a.z + b.z⟩ := rfl

theorem Vector3D.sub_mk (a b : Vector3D) :
    a - b = ⟨a.x - b.x, a.y - b.y, a.z - b.z⟩ := rfl

theorem Vector3D.mul_mk (v : Vector3D) (s : ℝ) :
    v * s = ⟨v.x * s, v.y * s, v.z * s⟩ := rfl

theorem Vector3D.rmul_mk (s : ℝ) (v : Vector3D) :
    s * v = ⟨v.x * s, v.y * s, v.z * s⟩ := rfl

theorem Vector3D.div_mk (v : Vector3D) (s : ℝ) :
    v / s = ⟨v.x / s, v.y / s, v.z / s⟩ := rfl

theorem Vector3D.zero_mk : (0 : Vector3D) = ⟨0, 0, 0⟩ := rfl

theorem Vector3D.zero_x : (0 : Vector3D).x = 0 := rfl

theorem Vector3D.zero_y : (0 : Vector3D).y = 0 := rfl

theorem Vector3D.zero_z : (0 : Vector3D).z = 0 := rfl

/-- C3: if `is_running` is false, a call to `step` leaves the entire
simulation state (time, bodies with their positions, velocities,
accelerations and trajectories, and the global history buffer) unchanged. -/
theorem step_noop_when_stopped (s : OrbitalSimulator)
    (h : s.is_running = false) : s.step = s := by
  simp [OrbitalSimulator.step, OrbitalSimulator.step_log, h]

/-- Witness for C3 at a freshly constructed (stopped) simulator. -/
theorem step_noop_when_stopped_witness :
    (OrbitalSimulator.init 3600 1).is_running = false ∧
    (OrbitalSimulator.init 3600 1).step = OrbitalSimulator.init 3600 1 :=
  ⟨rfl, step_noop_when_stopped _ rfl⟩

/-- C7: the position predicted from orbital elements is unchanged when only
the `argument_of_periapsis` entry is varied — the transform never applies
the argument-of-periapsis rotation. -/
theorem predict_position_ignores_argument_of_periapsis
    (el : OrbitalElements) (t sun_mass w : ℝ) :
    predict_position_from_elements
        { el with argument_of_periapsis := w } t sun_mass =
      predict_position_from_elements el t sun_mass := rfl

/-- C8: `normalize` of a vector of non-zero magnitude has magnitude exactly
one, and `normalize` of the zero vector is the zero vector. -/
theorem normalize_unit_or_zero (v : Vector3D) :
    (v.magnitude ≠ 0 → (v.normalize).magnitude = 1) ∧
    ((0 : Vector3D).normalize = 0) := by
  constructor
  · intro h
    have hnn : (0 : ℝ) ≤ v.x ^ 2 + v.y ^ 2 + v.z ^ 2 := by positivity
    have hsq : v.magnitude ^ 2 = v.x ^ 2 + v.y ^ 2 + v.z ^ 2 :=
      Real.sq_sqrt hnn
    rw [Vector3D.normalize, if_neg h]
    show Real.sqrt ((v.x / v.magnitude) ^ 2 + (v.y / v.magnitude) ^ 2 +
      (v.z / v.magnitude) ^ 2) = 1
    have hrw : (v.x / v.magnitude) ^ 2 + (v.y / v.magnitude) ^ 2 +
        (v.z / v.magnitude) ^ 2 =
        (v.x ^ 2 + v.y ^ 2 + v.z ^ 2) / v.magnitude ^ 2 := by ring
    rw [hrw, ← hsq, div_self (pow_ne_zero 2 h), Real.sqrt_one]
  · have h0 : (0 : Vector3D).magnitude = 0 := by
      show Real.sqrt ((0 : ℝ) ^ 2 + 0 ^ 2 + 0 ^ 2) = 0
      simp
    rw [Vector3D.normalize, if_pos h0]
    rfl

/-- Witness for C8 at the unit vector along x. -/
theorem normalize_unit_or_zero_witness :
    (Vector3D.mk 1 0 0).magnitude ≠ 0 ∧
    ((Vector3D.mk 1 0 0).normalize).magnitude = 1 := by
  have h : (Vector3D.mk 1 0 0).magnitude ≠ 0 := by
    show Real.sqrt ((1 : ℝ) ^ 2 + 0 ^ 2 + 0 ^ 2) ≠ 0
    simp
  exact ⟨h, (normalize_unit_or_zero ⟨1, 0, 0⟩).1 h⟩

/-- C6: `calculate_gravitational_force` agrees everywhere with the spec's
description: the zero vector whenever the separation is below `1e-6`, and
otherwise `G·m₁·m₂/r²` times the unit vector pointing from self toward
other. -/
theorem gravitational_force_correct (self other : CelestialBody) :
    calculate_gravitational_force self other = force_spec self other := by
  unfold calculate_gravitational_force force_spec
  by_cases h : (other.position - self.position).magnitude < 1e-6
  · rw [if_pos h, if_pos h, Vector3D.zero_mk]
  · rw [if_neg h, if_neg h]
    have hr : (other.position - self.position).magnitude ≠ 0 := by
      intro h0
      exact h (by rw [h0]; norm_num)
    rw [Vector3D.normalize, if_neg hr, Vector3D.div_mk, Vector3D.mul_mk,
      Vector3D.rmul_mk]

set_option maxHeartbeats 1000000 in
/-- C10: the reported element dictionary is exactly the radian-valued
element set of the spec's formulas with the four angular fields passed
through the degree conversion and all the remaining fields (semi-major
axis, period, periapsis, apoapsis) reported raw. -/
theorem orbital_elements_report_degrees (position velocity : Vector3D)
    (sun_mass : ℝ) :
    calculate_orbital_elements position velocity sun_mass =
      (orbital_elements_rad position velocity sun_mass).map reportElements := by
  unfold calculate_orbital_elements orbital_elements_rad
  by_cases h3 : G * sun_mass = 0
  · rw [if_pos h3, if_pos h3]
    rfl
  · rw [if_neg h3, if_neg h3]
    rfl

/-! Structural lemmas about the loop driver of `step`. -/

theorem runPass_succ
    (f : List CelestialBody → ℕ → CelestialBody × (List (List CelestialBody × ℕ)))
    (bs : List CelestialBody) (n : ℕ) (hn : n ≠ 0) :
    runPass f bs (n + 1) =
      ((runPass f bs n).1.set n (f (runPass f bs n).1 n).1,
       (runPass f bs n).2 ++ (f (runPass f bs n).1 n).2) := by
  simp [runPass, hn]

theorem runPass_length
    (f : List CelestialBody → ℕ → CelestialBody × (List (List CelestialBody × ℕ)))
    (bs : List CelestialBody) (n : ℕ) :
    (runPass f bs n).1.length = bs.length := by
  induction n with
  | zero => rfl
  | succ n ih =>
      by_cases hn : n = 0
      · subst hn; simp [runPass]
      · rw [runPass_succ f bs n hn]
        simp [List.length_set, ih]

theorem runPass_getElem?_of_le
    (f : List CelestialBody → ℕ → CelestialBody × (List (List CelestialBody × ℕ)))
    (bs : List CelestialBody) {n i : ℕ} (h : n ≤ i) :
    (runPass f bs n).1[i]? = bs[i]? := by
  induction n with
  | zero => rfl
  | succ n ih =>
      have hni : n ≤ i := Nat.le_of_succ_le h
      by_cases hn : n = 0
      · subst hn; simp [runPass]
      · rw [runPass_succ f bs n hn, List.getElem?_set_ne (by omega : n ≠ i)]
        exact ih hni

theorem runPass_getElem?_zero
    (f : List CelestialBody → ℕ → CelestialBody × (List (List CelestialBody × ℕ)))
    (bs : List CelestialBody) (n : ℕ) :
    (runPass f bs n).1[0]? = bs[0]? := by
  induction n with
  | zero => rfl
  | succ n ih =>
      by_cases hn : n = 0
      · subst hn; simp [runPass]
      · rw [runPass_succ f bs n hn, List.getElem?_set_ne hn]
        exact ih

theorem runPass_getElem?_done
    (f : List CelestialBody → ℕ → CelestialBody × (List (List CelestialBody × ℕ)))
    (bs : List CelestialBody) {i m : ℕ} (hi : i ≠ 0) (him : i < m)
    (hlen : i < bs.length) :
    (runPass f bs m).1[i]? = some (f (runPass f bs i).1 i).1 := by
  induction m with
  | zero => omega
  | succ m ih =>
      by_cases hm : i = m
      · subst hm
        rw [runPass_succ f bs i hi]
        have hl : i < (runPass f bs i).1.length := by
          rw [runPass_length]; exact hlen
        simp [List.getElem?_set_self, hl]
      · have him' : i < m := by omega
        have hm0 : m ≠ 0 := by omega
        rw [runPass_succ f bs m hm0, List.getElem?_set_ne (by omega : m ≠ i)]
        exact ih him'

theorem runPass_log_mem
    (f : List CelestialBody → ℕ → CelestialBody × (List (List CelestialBody × ℕ)))
    (bs : List CelestialBody) {n : ℕ} {e : List CelestialBody × ℕ}
    (he : e ∈ (runPass f bs n).2) :
    ∃ i, i ≠ 0 ∧ i < n ∧ e ∈ (f (runPass f bs i).1 i).2 := by
  induction n with
  | zero => simp [runPass] at he
  | succ n ih =>
      by_cases hn : n = 0
      · subst hn; simp [runPass] at he
      · rw [runPass_succ f bs n hn] at he
        rcases List.mem_append.1 he with h | h
        · obtain ⟨i, h1, h2, h3⟩ := ih h
          exact ⟨i, h1, by omega, h3⟩
        · exact ⟨n, hn, by omega, h⟩

theorem runPass_mem {P : CelestialBody → Prop}
    (f : List CelestialBody → ℕ → CelestialBody × (List (List CelestialBody × ℕ)))
    (bs : List CelestialBody)
    (hf : ∀ acc i, (∀ b ∈ acc, P b) → P (f acc i).1) {n : ℕ}
    (hbs : ∀ b ∈ bs, P b) : ∀ b ∈ (runPass f bs n).1, P b := by
  induction n with
  | zero => exact hbs
  | succ n ih =>
      by_cases hn : n = 0
      · subst hn; simpa [runPass] using hbs
      · rw [runPass_succ f bs n hn]
        intro b hb
        rcases List.mem_or_eq_of_mem_set hb with h | h
        · exact ih b h
        · subst h; exact hf _ n ih

/-- Setting an index to a body with the same position leaves the position
list unchanged. -/
theorem map_position_set (l : List CelestialBody) (n : ℕ) (b : CelestialBody)
    (hb : b.position = (l.getD n default).position) :
    (l.set n b).map CelestialBody.position = l.map CelestialBody.position := by
  apply List.ext_getElem?
  intro j
  rw [List.getElem?_map, List.getElem?_map]
  by_cases hj : j = n
  · subst hj
    by_cases h : j < l.length
    · have hval : b.position = l[j].position := by
        rw [hb, List.getD_eq_getElem?_getD, List.getElem?_eq_getElem h]
        rfl
      rw [List.getElem?_set_self h, List.getElem?_eq_getElem h]
      simp [hval]
    · rw [List.set_eq_of_length_le (le_of_not_lt h)]
  · rw [List.getElem?_set_ne (Ne.symm hj)]

/-- The first loop of `step` (the acceleration pass) changes only
acceleration fields: positions are untouched. -/
theorem accel_runPass_map_position (bs : List CelestialBody) (n : ℕ) :
    ((runPass accelPass bs n).1).map CelestialBody.position =
      bs.map CelestialBody.position := by
  induction n with
  | zero => rfl
  | succ n ih =>
      by_cases hn : n = 0
      · subst hn; simp [runPass]
      · rw [runPass_succ accelPass bs n hn]
        dsimp only
        rw [map_position_set (runPass accelPass bs n).1 n
          (accelPass (runPass accelPass bs n).1 n).1 rfl]
        exact ih

/-! Frame lemmas for `step` and the reachability invariant. -/

theorem step_stopped_eq (s : OrbitalSimulator) (h : s.is_running = false) :
    s.step = s := by
  simp [OrbitalSimulator.step, OrbitalSimulator.step_log, h]

theorem step_running_eq (s : OrbitalSimulator) (h : s.is_running = true) :
    s.step =
      { s with
          bodies := (loopBodies
            (verletPass (s.time_step * s.speed_multiplier) s.max_trajectory_points)
            (loopBodies accelPass s.bodies).1).1
          time := s.time + s.time_step * s.speed_multiplier
          trajectory_history :=
            store_state s.trajectory_history s.max_trajectory_points
              (s.time + s.time_step * s.speed_multiplier)
              (loopBodies
                (verletPass (s.time_step * s.speed_multiplier) s.max_trajectory_points)
                (loopBodies accelPass s.bodies).1).1 } := by
  simp [OrbitalSimulator.step, OrbitalSimulator.step_log, h]

theorem step_sun (s : OrbitalSimulator) : s.step.sun = s.sun := by
  cases hb : s.is_running
  · rw [step_stopped_eq s hb]
  · rw [step_running_eq s hb]

theorem step_is_running (s : OrbitalSimulator) :
    s.step.is_running = s.is_running := by
  cases hb : s.is_running
  · rw [step_stopped_eq s hb]; exact hb
  · rw [step_running_eq s hb]; exact hb

theorem step_max_points (s : OrbitalSimulator) :
    s.step.max_trajectory_points = s.max_trajectory_points := by
  cases hb : s.is_running
  · rw [step_stopped_eq s hb]
  · rw [step_running_eq s hb]

theorem step_time_step (s : OrbitalSimulator) :
    s.step.time_step = s.time_step := by
  cases hb : s.is_running
  · rw [step_stopped_eq s hb]
  · rw [step_running_eq s hb]

theorem step_speed_multiplier (s : OrbitalSimulator) :
    s.step.speed_multiplier = s.speed_multiplier := by
  cases hb : s.is_running
  · rw [step_stopped_eq s hb]
  · rw [step_running_eq s hb]

theorem step_bodies_getElem?_zero (s : OrbitalSimulator) :
    s.step.bodies[0]? = s.bodies[0]? := by
  cases hb : s.is_running
  · rw [step_stopped_eq s hb]
  · rw [step_running_eq s hb]
    dsimp only
    unfold loopBodies
    rw [runPass_getElem?_zero, runPass_getElem?_zero]

theorem step_bodies_length (s : OrbitalSimulator) :
    s.step.bodies.length = s.bodies.length := by
  cases hb : s.is_running
  · rw [step_stopped_eq s hb]
  · rw [step_running_eq s hb]
    dsimp only
    unfold loopBodies
    rw [runPass_length, runPass_length]

theorem getD_trajectory_le (acc : List CelestialBody) (i : ℕ)
    (h : ∀ b ∈ acc, b.trajectory.length ≤ 1000) :
    (acc.getD i default).trajectory.length ≤ 1000 := by
  rw [List.getD_eq_getElem?_getD]
  cases hx : acc[i]? with
  | none =>
      show (⟨"", 0, 0, 0, 0, "", [], 0⟩ : CelestialBody).trajectory.length ≤ 1000
      simp
  | some b => simpa using h b (List.getElem?_mem hx)

theorem step_preserves_traj_le (s : OrbitalSimulator)
    (hmax : s.max_trajectory_points = 1000)
    (h : ∀ b ∈ s.bodies, b.trajectory.length ≤ 1000) :
    ∀ b ∈ s.step.bodies, b.trajectory.length ≤ 1000 := by
  cases hb : s.is_running
  · rw [step_stopped_eq s hb]; exact h
  · rw [step_running_eq s hb]
    dsimp only
    unfold loopBodies
    refine runPass_mem _ _ ?_ (runPass_mem _ _ ?_ h)
    · intro acc i hacc
      show ((verletPass (s.time_step * s.speed_multiplier)
        s.max_trajectory_points acc i).1).trajectory.length ≤ 1000
      have hlen := getD_trajectory_le acc i hacc
      rw [hmax]
      by_cases hl : (acc.getD i default).trajectory.length < 1000
      · show (if (acc.getD i default).trajectory.length < 1000 then
            (acc.getD i default).trajectory ++ [_]
          else (acc.getD i default).trajectory.tail ++ [_]).length ≤ 1000
        rw [if_pos hl]
        simp only [List.length_append, List.length_singleton]
        omega
      · show (if (acc.getD i default).trajectory.length < 1000 then
            (acc.getD i default).trajectory ++ [_]
          else (acc.getD i default).trajectory.tail ++ [_]).length ≤ 1000
        rw [if_neg hl]
        simp only [List.length_append, List.length_singleton, List.length_tail]
        omega
    · intro acc i hacc
      show ((acc.getD i default).trajectory).length ≤ 1000
      exact getD_trajectory_le acc i hacc

theorem head?_append_some {α : Type} {l l2 : List α} {a : α}
    (h : l.head? = some a) : (l ++ l2).head? = some a := by
  cases l with
  | nil => simp at h
  | cons x t => simpa using h

/-- The class invariant of `OrbitalSimulator`: the `self.sun` reference is
the body built by `create_sun`, it sits at the head of the body list, the
trajectory capacity is 1000, and every trajectory respects that bound. -/
theorem reachable_invariant (s : OrbitalSimulator) (h : Reachable s) :
    s.sun = create_sun ∧ s.bodies.head? = some create_sun ∧
    s.max_trajectory_points = 1000 ∧
    ∀ b ∈ s.bodies, b.trajectory.length ≤ 1000 := by
  induction h with
  | init ts sm =>
      refine ⟨rfl, rfl, rfl, ?_⟩
      intro b hb
      simp [OrbitalSimulator.init] at hb
      subst hb
      simp [create_sun, mkBody]
  | add_body name mass position velocity radius color hs ih =>
      obtain ⟨h1, h2, h3, h4⟩ := ih
      refine ⟨h1, head?_append_some h2, h3, ?_⟩
      intro b hb
      simp [OrbitalSimulator.add_body] at hb
      rcases hb with hb | hb
      · exact h4 b hb
      · subst hb; simp [mkBody]
  | add_body_from_parameters name mass dfs iv angle radius color hs ih =>
      obtain ⟨h1, h2, h3, h4⟩ := ih
      refine ⟨h1, head?_append_some h2, h3, ?_⟩
      intro b hb
      simp [OrbitalSimulator.add_body_from_parameters,
        OrbitalSimulator.add_body] at hb
      rcases hb with hb | hb
      · exact h4 b hb
      · subst hb; simp [mkBody]
  | start hs ih => exact ih
  | stop hs ih => exact ih
  | @reset t hs ih =>
      obtain ⟨h1, h2, h3, h4⟩ := ih
      have hsun : { t.sun with trajectory := ([] : List Vector3D) } = create_sun := by
        rw [h1]
        rfl
      refine ⟨hsun, by simp [OrbitalSimulator.reset, hsun], h3, ?_⟩
      intro b hb
      simp [OrbitalSimulator.reset, hsun] at hb
      subst hb
      simp [create_sun, mkBody]
  | @step t hs ih =>
      obtain ⟨h1, h2, h3, h4⟩ := ih
      refine ⟨?_, ?_, ?_, ?_⟩
      · rw [step_sun]; exact h1
      · rw [List.head?_eq_getElem?, step_bodies_getElem?_zero,
          ← List.head?_eq_getElem?]
        exact h2
      · rw [step_max_points]; exact h3
      · exact step_preserves_traj_le t h3 h4

/-- C2: in every reachable state the distinguished "Sun" is present and
first in the body list with zero position and velocity, and a call to
`step` neither evaluates an acceleration for index 0 (every logged
`calculate_acceleration` call targets another body) nor changes the body
at index 0. -/
theorem central_sun_invariant (s : OrbitalSimulator) (h : Reachable s) :
    (∃ rest, s.bodies = create_sun :: rest) ∧
    create_sun.name = "Sun" ∧ create_sun.position = 0 ∧
    create_sun.velocity = 0 ∧
    (∀ e ∈ s.step_log.2, e.2 ≠ 0) ∧
    s.step.bodies.head? = s.bodies.head? := by
  obtain ⟨h1, h2, h3, h4⟩ := reachable_invariant s h
  refine ⟨?_, rfl, rfl, rfl, ?_, ?_⟩
  · cases hb : s.bodies with
    | nil => rw [hb] at h2; simp at h2
    | cons b t =>
        rw [hb] at h2
        simp at h2
        exact ⟨t, by rw [h2]⟩
  · intro e he
    by_cases hr : s.is_running = false
    · simp [OrbitalSimulator.step_log, hr] at he
    · have hr2 : s.is_running = true := by simpa using hr
      simp only [OrbitalSimulator.step_log, hr2, Bool.true_eq_false, if_false] at he
      rcases List.mem_append.1 he with h5 | h5
      · obtain ⟨i, hi, _, hmem⟩ := runPass_log_mem accelPass s.bodies h5
        simp only [accelPass, List.mem_singleton] at hmem
        rw [hmem]
        exact hi
      · obtain ⟨i, hi, _, hmem⟩ :=
          runPass_log_mem (verletPass (s.time_step * s.speed_multiplier)
            s.max_trajectory_points) (loopBodies accelPass s.bodies).1 h5
        simp only [verletPass, List.mem_singleton] at hmem
        rw [hmem]
        exact hi
  · rw [List.head?_eq_getElem?, List.head?_eq_getElem?, step_bodies_getElem?_zero]

/-- Witness for C2 at a freshly constructed simulator. -/
theorem central_sun_invariant_witness :
    Reachable (OrbitalSimulator.init 3600 1) ∧
    ((∃ rest, (OrbitalSimulator.init 3600 1).bodies = create_sun :: rest) ∧
     create_sun.name = "Sun" ∧ create_sun.position = 0 ∧
     create_sun.velocity = 0 ∧
     (∀ e ∈ (OrbitalSimulator.init 3600 1).step_log.2, e.2 ≠ 0) ∧
     (OrbitalSimulator.init 3600 1).step.bodies.head? =
       (OrbitalSimulator.init 3600 1).bodies.head?) :=
  ⟨Reachable.init 3600 1, central_sun_invariant _ (Reachable.init 3600 1)⟩

/-- C4: after `reset` from any reachable state the body list is exactly the
central body, time is zero, the simulator is stopped, every trajectory and
the global history buffer are empty, and a second `reset` changes nothing. -/
theorem reset_correct (s : OrbitalSimulator) (h : Reachable s) :
    s.reset.bodies = [create_sun] ∧ s.reset.time = 0 ∧
    s.reset.is_running = false ∧
    (∀ b ∈ s.reset.bodies, b.trajectory = []) ∧
    s.reset.trajectory_history = [] ∧
    s.reset.reset = s.reset := by
  obtain ⟨h1, -, -, -⟩ := reachable_invariant s h
  have hsun : { s.sun with trajectory := ([] : List Vector3D) } = create_sun := by
    rw [h1]
    rfl
  refine ⟨by simp [OrbitalSimulator.reset, hsun], rfl, rfl, ?_, rfl, rfl⟩
  intro b hb
  simp only [OrbitalSimulator.reset, List.mem_singleton] at hb
  rw [hb]

/-- Witness for C4 at a freshly constructed simulator. -/
theorem reset_correct_witness :
    Reachable (OrbitalSimulator.init 3600 1) ∧
    ((OrbitalSimulator.init 3600 1).reset.bodies = [create_sun] ∧
     (OrbitalSimulator.init 3600 1).reset.time = 0 ∧
     (OrbitalSimulator.init 3600 1).reset.is_running = false ∧
     (∀ b ∈ (OrbitalSimulator.init 3600 1).reset.bodies, b.trajectory = []) ∧
     (OrbitalSimulator.init 3600 1).reset.trajectory_history = [] ∧
     (OrbitalSimulator.init 3600 1).reset.reset = (OrbitalSimulator.init 3600 1).reset) :=
  ⟨Reachable.init 3600 1, reset_correct _ (Reachable.init 3600 1)⟩

/-- C1 (amended): within one running `step`, the evaluations of the first
acceleration pass all read every body's position as it was when the step
began; the per-body re-evaluation of the second (Verlet) pass, by contrast,
reads positions already advanced during the same step (see the
counterexample). -/
theorem step_first_pass_unadvanced (s : OrbitalSimulator)
    (h : s.is_running = true) :
    ∃ rest, s.step_log.2 = (loopBodies accelPass s.bodies).2 ++ rest ∧
      ∀ e ∈ (loopBodies accelPass s.bodies).2,
        e.1.map CelestialBody.position = s.bodies.map CelestialBody.position := by
  refine ⟨(loopBodies (verletPass (s.time_step * s.speed_multiplier)
      s.max_trajectory_points) (loopBodies accelPass s.bodies).1).2, ?_, ?_⟩
  · simp [OrbitalSimulator.step_log, h]
  · intro e he
    obtain ⟨i, hi, hlt, hmem⟩ := runPass_log_mem accelPass s.bodies he
    simp only [accelPass, List.mem_singleton] at hmem
    rw [hmem]
    exact accel_runPass_map_position s.bodies i

/-- Witness for the amended C1 at the concrete hazard scenario. -/
theorem step_first_pass_unadvanced_witness :
    hazard_state.is_running = true ∧
    (∃ rest, hazard_state.step_log.2 =
        (loopBodies accelPass hazard_state.bodies).2 ++ rest ∧
      ∀ e ∈ (loopBodies accelPass hazard_state.bodies).2,
        e.1.map CelestialBody.position =
          hazard_state.bodies.map CelestialBody.position) :=
  ⟨rfl, step_first_pass_unadvanced hazard_state rfl⟩

theorem hazard_bodies_eq :
    hazard_state.bodies =
      [create_sun, ⟨"P", 1, ⟨0, 0, 0⟩, ⟨1, 0, 0⟩, 0, "#ffffff", [], 0⟩] := rfl

theorem hazard_accel_eq :
    calculate_acceleration
      [create_sun, ⟨"P", 1, ⟨0, 0, 0⟩, ⟨1, 0, 0⟩, 0, "#ffffff", [], 0⟩] 1 =
      ⟨0, 0, 0⟩ := by
  norm_num [calculate_acceleration, calculate_gravitational_force,
    Vector3D.magnitude, Vector3D.sub_mk, Vector3D.add_mk, Vector3D.div_mk,
    create_sun, mkBody, List.enum, List.enumFrom, Real.sqrt_zero,
    Vector3D.zero_x, Vector3D.zero_y, Vector3D.zero_z]

theorem hazard_log_eq :
    hazard_state.step_log.2 =
      [([create_sun, ⟨"P", 1, ⟨0, 0, 0⟩, ⟨1, 0, 0⟩, 0, "#ffffff", [], 0⟩], 1),
       ([create_sun, ⟨"P", 1, ⟨3600, 0, 0⟩, ⟨1, 0, 0⟩, 0, "#ffffff", [], ⟨0, 0, 0⟩⟩], 1)] := by
  norm_num [hazard_state, OrbitalSimulator.step_log, OrbitalSimulator.init,
    OrbitalSimulator.add_body, OrbitalSimulator.start, loopBodies, runPass,
    accelPass, verletPass, mkBody, hazard_accel_eq, Vector3D.add_mk,
    Vector3D.mul_mk, Vector3D.zero_x, Vector3D.zero_y, Vector3D.zero_z,
    List.getD, List.set]

/-- C1 (counterexample): in the reachable running state `hazard_state`, one
of the acceleration evaluations performed during the step receives a
collection in which the planet's position is already advanced to
`(3600, 0, 0)`, not its position `(0, 0, 0)` from the beginning of the
step. -/
theorem step_reads_advanced_position_counterexample :
    Reachable hazard_state ∧ hazard_state.is_running = true ∧
    hazard_entry ∈ hazard_state.step_log.2 ∧
    hazard_entry.1.map CelestialBody.position ≠
      hazard_state.bodies.map CelestialBody.position := by
  refine ⟨Reachable.start (Reachable.add_body "P" 1 ⟨0, 0, 0⟩ ⟨1, 0, 0⟩ 0
    "#ffffff" (Reachable.init 3600 1)), rfl, ?_, ?_⟩
  · rw [hazard_log_eq]
    simp [hazard_entry]
  · rw [hazard_bodies_eq]
    intro hcontra
    simp [hazard_entry, create_sun, mkBody, Vector3D.mk.injEq] at hcontra

theorem get_not_found_iff (s : OrbitalSimulator) (rest : List CelestialBody)
    (hb : s.bodies = create_sun :: rest) (body_name : String) :
    (s.get_orbital_elements body_name = Except.ok none ↔
      (body_name = "Sun" ∨ ∀ b ∈ s.bodies, b.name ≠ body_name)) ∧
    (s.get_orbital_elements body_name = Except.ok none ∨
      ∃ b, b ∈ s.bodies ∧ b.name = body_name ∧
        s.get_orbital_elements body_name =
          (match calculate_orbital_elements b.position b.velocity s.sun.mass with
           | none => Except.error ()
           | some el => Except.ok (some el))) := by
  by_cases hname : body_name = "Sun"
  · subst hname
    have hfind : s.bodies.enum.find?
        (fun p => p.2.name == "Sun") = some (0, create_sun) := by
      rw [hb]
      show List.find? _ ((0, create_sun) :: List.enumFrom 1 rest) = _
      exact List.find?_cons_of_pos _ (by simp [create_sun, mkBody])
    have hres : s.get_orbital_elements "Sun" = Except.ok none := by
      simp [OrbitalSimulator.get_orbital_elements, hfind]
    exact ⟨⟨fun _ => Or.inl rfl, fun _ => hres⟩, Or.inl hres⟩
  · have hsun : ((create_sun.name == body_name) : Bool) = false := by
      simp [create_sun, mkBody]
      exact fun hcon => hname (by rw [hcon])
    have hfind : s.bodies.enum.find? (fun p => p.2.name == body_name) =
        (List.enumFrom 1 rest).find? (fun p => p.2.name == body_name) := by
      rw [hb]
      show List.find? _ ((0, create_sun) :: List.enumFrom 1 rest) = _
      exact List.find?_cons_of_neg _ (by simp [hsun])
    cases hf2 : (List.enumFrom 1 rest).find? (fun p => p.2.name == body_name) with
    | none =>
        have hnone : ∀ b ∈ rest, b.name ≠ body_name := by
          intro b hbr hcon
          have hmem : (∀ x ∈ List.enumFrom 1 rest,
              ¬((fun (p : ℕ × CelestialBody) => p.2.name == body_name) x = true)) :=
            List.find?_eq_none.1 hf2
          obtain ⟨j, hj⟩ : ∃ j, (j, b) ∈ List.enumFrom 1 rest := by
            have hm2 : b ∈ (List.enumFrom 1 rest).map Prod.snd := by
              rw [List.enumFrom_map_snd]; exact hbr
            obtain ⟨x, hx1, hx2⟩ := List.mem_map.1 hm2
            exact ⟨x.1, by rwa [show (x.1, b) = x from by rw [← hx2]]⟩
          exact hmem (j, b) hj (by simp [hcon])
        have hall : ∀ b ∈ s.bodies, b.name ≠ body_name := by
          rw [hb]
          intro b hbmem
          rcases List.mem_cons.1 hbmem with hb1 | hb1
          · subst hb1
            show create_sun.name ≠ body_name
            exact fun hcon => hname (by rw [← hcon]; rfl)
          · exact hnone b hb1
        have hres : s.get_orbital_elements body_name = Except.ok none := by
          simp [OrbitalSimulator.get_orbital_elements, hfind, hf2]
        exact ⟨⟨fun _ => Or.inr hall, fun _ => hres⟩, Or.inl hres⟩
    | some p =>
        obtain ⟨j, b⟩ := p
        have hq : (b.name == body_name) = true := by
          simpa using List.find?_some hf2
        have hbname : b.name = body_name := eq_of_beq hq
        have hmem : (j, b) ∈ List.enumFrom 1 rest := List.mem_of_find?_eq_some hf2
        have hj : 1 ≤ j := List.le_fst_of_mem_enumFrom hmem
        have hbr : b ∈ rest := List.snd_mem_of_mem_enumFrom hmem
        have hj0 : j ≠ 0 := by omega
        have hbmem : b ∈ s.bodies := by
          rw [hb]; exact List.mem_cons_of_mem _ hbr
        have hres2 : s.get_orbital_elements body_name =
            (match calculate_orbital_elements b.position b.velocity s.sun.mass with
             | none => Except.error ()
             | some el => Except.ok (some el)) := by
          simp [OrbitalSimulator.get_orbital_elements, hfind, hf2, hj0]
        constructor
        · constructor
          · intro hcon
            exfalso
            rw [hres2] at hcon
            cases hcalc : calculate_orbital_elements b.position b.velocity s.sun.mass with
            | none => rw [hcalc] at hcon; simp at hcon
            | some el => rw [hcalc] at hcon; simp at hcon
          · intro hcon
            rcases hcon with hcon | hcon
            · exact absurd hcon hname
            · exact absurd hbname (hcon b hbmem)
        · exact Or.inr ⟨b, hbmem, hbname, hres2⟩

/-- C9: for every reachable state, `get_orbital_elements` returns the
not-found signal exactly when the name refers to the central body or no
body carries it; otherwise it returns the orbital-element set computed
from the first matching body's position, velocity and the central mass;
and the lookup never reaches a fault (the only fault site, the vector
division by `mu`, needs `mu = 0`, while the central mass is fixed at
`SOLAR_MASS`). -/
theorem get_orbital_elements_spec (s : OrbitalSimulator) (h : Reachable s)
    (body_name : String) :
    (s.get_orbital_elements body_name = Except.ok none ↔
      (body_name = "Sun" ∨ ∀ b ∈ s.bodies, b.name ≠ body_name)) ∧
    (∀ e : Unit, s.get_orbital_elements body_name ≠ Except.error e) ∧
    (s.get_orbital_elements body_name = Except.ok none ∨
      ∃ b, b ∈ s.bodies ∧ b.name = body_name ∧ ∃ el,
        calculate_orbital_elements b.position b.velocity s.sun.mass = some el ∧
        s.get_orbital_elements body_name = Except.ok (some el)) := by
  obtain ⟨h1, h2, -, -⟩ := reachable_invariant s h
  obtain ⟨rest, hb⟩ : ∃ rest, s.bodies = create_sun :: rest := by
    cases hbs : s.bodies with
    | nil => rw [hbs] at h2; simp at h2
    | cons b t =>
        rw [hbs] at h2
        simp at h2
        exact ⟨t, by rw [h2]⟩
  have hmu : ¬ G * s.sun.mass = 0 := by
    rw [h1]
    show ¬ G * create_sun.mass = 0
    norm_num [G, create_sun, mkBody, SOLAR_MASS]
  have hcalc : ∀ pos vel : Vector3D,
      ∃ el, calculate_orbital_elements pos vel s.sun.mass = some el := by
    intro pos vel
    simp only [calculate_orbital_elements]
    rw [if_neg hmu]
    exact ⟨_, rfl⟩
  obtain ⟨hiff, hout⟩ := get_not_found_iff s rest hb body_name
  refine ⟨hiff, ?_, ?_⟩
  · intro e hcon
    rcases hout with hok | ⟨b, hbm, hbn, hres⟩
    · rw [hok] at hcon
      exact absurd hcon (by simp)
    · obtain ⟨el, hel⟩ := hcalc b.position b.velocity
      rw [hel] at hres
      rw [hres] at hcon
      exact absurd hcon (by simp)
  · rcases hout with hok | ⟨b, hbm, hbn, hres⟩
    · exact Or.inl hok
    · obtain ⟨el, hel⟩ := hcalc b.position b.velocity
      rw [hel] at hres
      exact Or.inr ⟨b, hbm, hbn, el, hel, hres⟩

/-- Witness for C9: looking up "Mars" in a fresh simulator. -/
theorem get_orbital_elements_spec_witness :
    Reachable (OrbitalSimulator.init 3600 1) ∧
    (((OrbitalSimulator.init 3600 1).get_orbital_elements "Mars" = Except.ok none ↔
      ("Mars" = "Sun" ∨
        ∀ b ∈ (OrbitalSimulator.init 3600 1).bodies, b.name ≠ "Mars")) ∧
    (∀ e : Unit,
      (OrbitalSimulator.init 3600 1).get_orbital_elements "Mars" ≠ Except.error e) ∧
    ((OrbitalSimulator.init 3600 1).get_orbital_elements "Mars" = Except.ok none ∨
      ∃ b, b ∈ (OrbitalSimulator.init 3600 1).bodies ∧ b.name = "Mars" ∧ ∃ el,
        calculate_orbital_elements b.position b.velocity
          (OrbitalSimulator.init 3600 1).sun.mass = some el ∧
        (OrbitalSimulator.init 3600 1).get_orbital_elements "Mars" =
          Except.ok (some el))) :=
  ⟨Reachable.init 3600 1,
    get_orbital_elements_spec _ (Reachable.init 3600 1) "Mars"⟩


theorem step_traj_update (s : OrbitalSimulator) (hr : s.is_running = true)
    {i : ℕ} (hi : i ≠ 0) {b b2 : CelestialBody}
    (hb : s.bodies[i]? = some b) (hb2 : s.step.bodies[i]? = some b2) :
    b2.trajectory =
      (if b.trajectory.length < s.max_trajectory_points then
        b.trajectory ++ [b2.position]
      else b.trajectory.tail ++ [b2.position]) := by
  have hlen : i < s.bodies.length := by
    by_contra hcon
    rw [List.getElem?_eq_none (le_of_not_lt hcon)] at hb
    exact absurd hb (by simp)
  set dt := s.time_step * s.speed_multiplier with hdt
  set m := s.max_trajectory_points with hm
  have hstep : s.step.bodies =
      (loopBodies (verletPass dt m) (loopBodies accelPass s.bodies).1).1 := by
    rw [step_running_eq s hr]
  have hlen1 : (loopBodies accelPass s.bodies).1.length = s.bodies.length :=
    runPass_length _ _ _
  have hab : (loopBodies accelPass s.bodies).1[i]? =
      some ((accelPass (runPass accelPass s.bodies i).1 i).1) :=
    runPass_getElem?_done accelPass s.bodies hi hlen hlen
  have hb1get : (runPass accelPass s.bodies i).1[i]? = some b := by
    rw [runPass_getElem?_of_le accelPass s.bodies (le_refl i)]; exact hb
  have hb1traj :
      ((accelPass (runPass accelPass s.bodies i).1 i).1).trajectory = b.trajectory := by
    show ((runPass accelPass s.bodies i).1.getD i default).trajectory = b.trajectory
    rw [List.getD_eq_getElem?_getD, hb1get]
    rfl
  have hvb : s.step.bodies[i]? =
      some ((verletPass dt m
        (runPass (verletPass dt m) (loopBodies accelPass s.bodies).1 i).1 i).1) := by
    rw [hstep]
    exact runPass_getElem?_done _ _ hi (by omega) (by omega)
  have hb2eq : b2 = (verletPass dt m
      (runPass (verletPass dt m) (loopBodies accelPass s.bodies).1 i).1 i).1 :=
    Option.some_inj.mp (hb2.symm.trans hvb)
  have hacc_get : (runPass (verletPass dt m)
      (loopBodies accelPass s.bodies).1 i).1[i]? =
      some ((accelPass (runPass accelPass s.bodies i).1 i).1) := by
    rw [runPass_getElem?_of_le _ _ (le_refl i)]; exact hab
  have hbody : (runPass (verletPass dt m)
      (loopBodies accelPass s.bodies).1 i).1.getD i default =
      (accelPass (runPass accelPass s.bodies i).1 i).1 := by
    rw [List.getD_eq_getElem?_getD, hacc_get]
    rfl
  have htraj_proj : ∀ (acc : List CelestialBody) (j : ℕ),
      (verletPass dt m acc j).1.trajectory =
        (if (acc.getD j default).trajectory.length < m then
          (acc.getD j default).trajectory ++ [(verletPass dt m acc j).1.position]
        else
          (acc.getD j default).trajectory.tail ++ [(verletPass dt m acc j).1.position]) :=
    fun acc j => rfl
  rw [hb2eq, htraj_proj, hbody, hb1traj]


theorem step_traj_window (s : OrbitalSimulator) (hr : s.is_running = true)
    (hmax : s.max_trajectory_points = 1000) {i : ℕ} (hi : i ≠ 0)
    {b b2 : CelestialBody} (hb : s.bodies[i]? = some b)
    (hb2 : s.step.bodies[i]? = some b2)
    (hble : b.trajectory.length ≤ 1000) :
    b2.trajectory =
      (b.trajectory ++ [b2.position]).drop (b.trajectory.length + 1 - 1000) := by
  rw [step_traj_update s hr hi hb hb2, hmax]
  by_cases hl : b.trajectory.length < 1000
  · rw [if_pos hl, show b.trajectory.length + 1 - 1000 = 0 by omega, List.drop_zero]
  · rw [if_neg hl, show b.trajectory.length + 1 - 1000 = 1 by omega,
      List.drop_append_of_le_length (by omega), List.drop_one]

theorem iterate_step_facts (s : OrbitalSimulator) (h : Reachable s) (n : ℕ) :
    Reachable (OrbitalSimulator.step^[n] s) ∧
    (OrbitalSimulator.step^[n] s).is_running = s.is_running ∧
    (OrbitalSimulator.step^[n] s).bodies.length = s.bodies.length ∧
    (OrbitalSimulator.step^[n] s).max_trajectory_points =
      s.max_trajectory_points := by
  induction n with
  | zero => exact ⟨h, rfl, rfl, rfl⟩
  | succ n ih =>
      rw [Function.iterate_succ_apply']
      exact ⟨Reachable.step ih.1,
        by rw [step_is_running]; exact ih.2.1,
        by rw [step_bodies_length]; exact ih.2.2.1,
        by rw [step_max_points]; exact ih.2.2.2⟩

theorem traj_after_iterate (s : OrbitalSimulator) (h : Reachable s)
    (hr : s.is_running = true) (hmax : s.max_trajectory_points = 1000)
    {i : ℕ} (hi : i ≠ 0) {b : CelestialBody}
    (hb : s.bodies[i]? = some b) (hempty : b.trajectory = []) :
    ∀ (n : ℕ) {b2 : CelestialBody},
      (OrbitalSimulator.step^[n] s).bodies[i]? = some b2 →
      b2.trajectory = (recorded s i n).drop (n - 1000) := by
  intro n
  induction n with
  | zero =>
      intro b2 hb2
      rw [Function.iterate_zero_apply] at hb2
      rw [hb] at hb2
      rw [← Option.some_inj.mp hb2]
      simp [recorded, hempty]
  | succ n ih =>
      intro b2 hb2
      obtain ⟨hreach, hrun, hlenn, hmaxn⟩ := iterate_step_facts s h n
      have hlt : i < s.bodies.length := by
        by_contra hcon
        rw [List.getElem?_eq_none (le_of_not_lt hcon)] at hb
        exact absurd hb (by simp)
      have hltn : i < (OrbitalSimulator.step^[n] s).bodies.length := by omega
      obtain ⟨bN, hbN⟩ : ∃ bN, (OrbitalSimulator.step^[n] s).bodies[i]? = some bN :=
        ⟨_, List.getElem?_eq_getElem hltn⟩
      have ihN := ih hbN
      rw [Function.iterate_succ_apply'] at hb2
      have hrunN : (OrbitalSimulator.step^[n] s).is_running = true := by
        rw [hrun]; exact hr
      have hmaxN : (OrbitalSimulator.step^[n] s).max_trajectory_points = 1000 := by
        rw [hmaxn]; exact hmax
      have hNle : bN.trajectory.length ≤ 1000 := by
        obtain ⟨-, -, -, h4⟩ := reachable_invariant _ hreach
        exact h4 bN (List.getElem?_mem hbN)
      have hwin := step_traj_window (OrbitalSimulator.step^[n] s) hrunN hmaxN hi
        hbN hb2 hNle
      have hpos : b2.position = position_after s i (n + 1) := by
        rw [position_after, Function.iterate_succ_apply',
          List.getD_eq_getElem?_getD, hb2]
        rfl
      have hrec : recorded s i (n + 1) =
          recorded s i n ++ [position_after s i (n + 1)] := by
        rw [recorded, recorded, List.range_succ, List.map_append]
        rfl
      have hlenrec : (recorded s i n).length = n := by simp [recorded]
      have hNlen : bN.trajectory.length = n - (n - 1000) := by
        rw [ihN, List.length_drop, hlenrec]
      rw [hwin, ihN, hrec, ← hpos, List.length_drop, hlenrec]
      by_cases hn : n < 1000
      · rw [show n - 1000 = 0 by omega, show n - 0 + 1 - 1000 = 0 by omega,
          show n + 1 - 1000 = 0 by omega, List.drop_zero, List.drop_zero,
          List.drop_zero]
      · rw [show n - (n - 1000) + 1 - 1000 = 1 by omega]
        rw [List.drop_append_of_le_length (by rw [List.length_drop, hlenrec]; omega),
          List.drop_append_of_le_length (by rw [hlenrec]; omega)]
        rw [List.drop_drop, show n - 1000 + 1 = n + 1 - 1000 by omega]


/-- C5: for every reachable state, each body's trajectory holds at most
1000 positions; a running step gives each non-central body the trajectory
obtained by appending the body's new position and dropping the oldest entry
exactly when the buffer was full (the sliding window
`(old ++ [new]).drop (old.length + 1 - 1000)`); and a body that starts with
an empty trajectory holds, after `n > 1000` running steps, exactly the last
1000 recorded positions in recording order — length exactly 1000, and the
first element is the position recorded at step `n - 999`, the entry of step
1 having been evicted. -/
theorem trajectory_sliding_window (s : OrbitalSimulator) (h : Reachable s) :
    (∀ b ∈ s.bodies, b.trajectory.length ≤ 1000) ∧
    (s.is_running = true → ∀ i, i ≠ 0 → ∀ b b2, s.bodies[i]? = some b →
      s.step.bodies[i]? = some b2 →
      b2.trajectory =
        (b.trajectory ++ [b2.position]).drop (b.trajectory.length + 1 - 1000)) ∧
    (s.is_running = true → ∀ i, i ≠ 0 → ∀ b, s.bodies[i]? = some b →
      b.trajectory = [] → ∀ n, 1000 < n → ∀ b2,
      (OrbitalSimulator.step^[n] s).bodies[i]? = some b2 →
      b2.trajectory = (recorded s i n).drop (n - 1000) ∧
      b2.trajectory.length = 1000 ∧
      b2.trajectory.head? = some (position_after s i (n - 999))) := by
  obtain ⟨-, -, h3, h4⟩ := reachable_invariant s h
  refine ⟨h4, ?_, ?_⟩
  · intro hr i hi b b2 hb hb2
    exact step_traj_window s hr h3 hi hb hb2 (h4 b (List.getElem?_mem hb))
  · intro hr i hi b hb hempty n hn b2 hb2
    have hwin := traj_after_iterate s h hr h3 hi hb hempty n hb2
    refine ⟨hwin, ?_, ?_⟩
    · rw [hwin, List.length_drop]
      simp only [recorded, List.length_map, List.length_range]
      omega
    · rw [hwin, List.head?_drop]
      rw [recorded, List.getElem?_map]
      rw [List.getElem?_range (by omega : n - 1000 < n)]
      show some (position_after s i (n - 1000 + 1)) = some (position_after s i (n - 999))
      rw [show n - 1000 + 1 = n - 999 by omega]


/-- Witness for C5 at a freshly constructed simulator. -/
theorem trajectory_sliding_window_witness :
    Reachable (OrbitalSimulator.init 3600 1) ∧
    ((∀ b ∈ (OrbitalSimulator.init 3600 1).bodies, b.trajectory.length ≤ 1000) ∧
    ((OrbitalSimulator.init 3600 1).is_running = true → ∀ i, i ≠ 0 →
      ∀ b b2, (OrbitalSimulator.init 3600 1).bodies[i]? = some b →
      (OrbitalSimulator.init 3600 1).step.bodies[i]? = some b2 →
      b2.trajectory =
        (b.trajectory ++ [b2.position]).drop (b.trajectory.length + 1 - 1000)) ∧
    ((OrbitalSimulator.init 3600 1).is_running = true → ∀ i, i ≠ 0 →
      ∀ b, (OrbitalSimulator.init 3600 1).bodies[i]? = some b →
      b.trajectory = [] → ∀ n, 1000 < n → ∀ b2,
      (OrbitalSimulator.step^[n] (OrbitalSimulator.init 3600 1)).bodies[i]? = some b2 →
      b2.trajectory = (recorded (OrbitalSimulator.init 3600 1) i n).drop (n - 1000) ∧
      b2.trajectory.length = 1000 ∧
      b2.trajectory.head? =
        some (position_after (OrbitalSimulator.init 3600 1) i (n - 999)))) :=
  ⟨Reachable.init 3600 1, trajectory_sliding_window _ (Reachable.init 3600 1)⟩

end

end OrbitalSim
